import Mathlib

/-!
Shallow embedding of the lending_bot_spreads repository (src/tools.py,
src/conversation_utils.py) and verification of its specification claims.

Conventions of the embedding:
- Python dicts become association lists `List (String × _)`.
- Python exceptions become `Except PyError _`; a function that cannot raise
  stays total.
- Argument values (the entries of `call.function.arguments`) are represented
  by their Python string rendering, since the tool implementations only ever
  interpolate them into f-strings.
- The remote Azure OpenAI service is external to the repository; the
  orchestrator observes it only through the sequence of responses it returns,
  so it is modelled by a deterministic response script, and every network
  round-trip the orchestrator performs is recorded as a `NetEvent` in an
  emitted trace.
- The unbounded Python `while` loop is given explicit fuel; fuel exhaustion
  is the distinguished outcome `spin`.
-/

/-- Python exception values that the embedded code can raise. -/
inductive PyError where
  | typeError (msg : String)
  | indexError
  | valueError (msg : String)
deriving DecidableEq, Repr

/-! ## src/tools.py -/

/-- Embeds the dataclass `ToolSchema` (src/tools.py lines 23-30): `name`,
`description`, `properties` (parameter name to a dict of string fields) and
`required`. -/
structure ToolSchema where
  name : String
  description : String
  properties : List (String × List (String × String))
  required : List String
deriving DecidableEq, Repr

/-- JSON-like payload values, the shape of the dicts built by
`ToolSchema.to_openai_dict` and `ToolRegistry.openai_tools`. -/
inductive Payload where
  | str (s : String)
  | arr (xs : List Payload)
  | obj (fields : List (String × Payload))

/-- Embeds `ToolSchema.to_openai_dict` (src/tools.py lines 32-45): the nested
function descriptor dict. -/
def ToolSchema.to_openai_dict (s : ToolSchema) : Payload :=
  .obj [("type", .str "function"),
        ("function", .obj
          [("name", .str s.name),
           ("description", .str s.description),
           ("parameters", .obj
             [("type", .str "object"),
              ("properties", .obj (s.properties.map
                 (fun p => (p.1, Payload.obj (p.2.map (fun q => (q.1, Payload.str q.2))))))),
              ("required", .arr (s.required.map Payload.str))])])]

/-- One entry of `ToolRegistry._tools`: either a `ToolSchema` or, for a
built-in, the one-field dict produced by `add_builtin`
(Python type `ToolSchema | Dict[str, str]`). -/
inductive ToolEntry where
  | schema (s : ToolSchema)
  | builtin (tag : String)
deriving DecidableEq, Repr

/-- Embeds `ToolRegistry` (src/tools.py line 52): the ordered `_tools` list
initialised empty by the constructor. -/
structure ToolRegistry where
  _tools : List ToolEntry
deriving DecidableEq, Repr

/-- Embeds `ToolRegistry.add_function` (src/tools.py lines 60-61): appends the
schema unconditionally; the source performs no duplicate-name check and cannot
raise. -/
def ToolRegistry.add_function (r : ToolRegistry) (schema : ToolSchema) : ToolRegistry :=
  ⟨r._tools ++ [.schema schema]⟩

/-- Embeds `ToolRegistry.add_builtin` (src/tools.py lines 63-66): validates the
tag against the closed set and raises `ValueError` otherwise; on success
appends the one-field tag dict. It performs no client/network interaction:
its result depends only on the registry and the tag. -/
def ToolRegistry.add_builtin (r : ToolRegistry) (builtin_name : String) :
    Except PyError ToolRegistry :=
  if builtin_name ∈ (["code_interpreter", "file_search"] : List String) then
    .ok ⟨r._tools ++ [.builtin builtin_name]⟩
  else
    .error (.valueError ("Unknown built‑in tool: " ++ builtin_name))

/-- The `webSearch` schema registered by `ToolRegistry.default`
(src/tools.py lines 77-90). -/
def webSearchSchema : ToolSchema :=
  ⟨"webSearch",
   "Real‑time Bing search for rates, regulations, or news.",
   [("query", [("type", "string"), ("description", "Search query.")]),
    ("freshness_days",
      [("type", "integer"),
       ("description", "Restrict results to the last N days (optional).")])],
   ["query"]⟩

/-- The `getRateSheet` schema registered by `ToolRegistry.default`
(src/tools.py lines 92-103). -/
def getRateSheetSchema : ToolSchema :=
  ⟨"getRateSheet",
   "Fetch the latest pricing for a loan scenario.",
   [("loanType", [("type", "string")]),
    ("fico", [("type", "integer")]),
    ("ltv", [("type", "number")])],
   ["loanType", "fico", "ltv"]⟩

/-- The `createLoanDoc` schema registered by `ToolRegistry.default`
(src/tools.py lines 105-115). -/
def createLoanDocSchema : ToolSchema :=
  ⟨"createLoanDoc",
   "Generate or fill a lending document and return the file_id.",
   [("borrowerId", [("type", "string")]),
    ("templateId", [("type", "string")])],
   ["borrowerId", "templateId"]⟩

/-- Embeds the factory `ToolRegistry.default` (src/tools.py lines 70-116):
fresh registry, two built-ins, then the three custom schemas, in source
order. The `add_builtin` calls can in principle raise, hence the `Except`. -/
def ToolRegistry.default : Except PyError ToolRegistry := do
  let reg : ToolRegistry := ⟨[]⟩
  let reg ← reg.add_builtin "code_interpreter"
  let reg ← reg.add_builtin "file_search"
  let reg := reg.add_function webSearchSchema
  let reg := reg.add_function getRateSheetSchema
  let reg := reg.add_function createLoanDocSchema
  return reg

/-- Encodes one `_tools` entry the way the loop body of `openai_tools`
does: a built-in dict is passed through, a schema is converted via
`to_openai_dict`. -/
def encodeEntry : ToolEntry → Payload
  | .builtin tag => .obj [("type", .str tag)]
  | .schema s => s.to_openai_dict

/-- The accumulation loop of `openai_tools` (src/tools.py lines 122-124):
builds a fresh payload list, one entry per `_tools` element, in order. -/
def openaiToolsLoop : List ToolEntry → List Payload
  | [] => []
  | t :: ts => encodeEntry t :: openaiToolsLoop ts

/-- Embeds `ToolRegistry.openai_tools` (src/tools.py lines 120-125) with
explicit state passing: the method reads `self._tools`, builds a fresh list,
and returns `self` unmodified (its body never assigns to `self`). -/
def ToolRegistry.openai_tools (r : ToolRegistry) : List Payload × ToolRegistry :=
  (openaiToolsLoop r._tools, r)

/-! ## src/conversation_utils.py — ToolDispatcher -/

/-- One element of `run_obj.required_action.submit_tool_outputs.tool_calls`:
`call.id`, `call.function.name`, and `call.function.arguments` as a dict of
rendered argument values. -/
structure ToolCall where
  id : String
  name : String
  arguments : List (String × String)
deriving DecidableEq, Repr

/-- One element of the list `handle_step` returns: the dict with keys
`tool_call_id` and `output`. -/
structure ToolOutput where
  tool_call_id : String
  output : String
deriving DecidableEq, Repr

/-- Dict lookup on an argument mapping (Python dict access; keys of a real
dict are unique, so first match is the dict semantics). -/
def argLookup (args : List (String × String)) (k : String) : Option String :=
  (args.find? (fun kv => kv.1 = k)).map (fun kv => kv.2)

/-- Embeds `ToolDispatcher.web_search` (src/conversation_utils.py lines 48-49):
the mock f-string; `freshness_days` defaults to `None`, which Python renders
as the text "None". -/
def ToolDispatcher.web_search (query : String) (freshness_days : Option String) : String :=
  "<mock WebSearch results for \x27" ++ query ++ "\x27, freshness=" ++
    freshness_days.getD "None" ++ ">"

/-- Embeds `ToolDispatcher.get_rate_sheet` (src/conversation_utils.py
lines 51-52): the mock rate-sheet f-string. -/
def ToolDispatcher.get_rate_sheet (loanType fico ltv : String) : String :=
  "RateSheet mock → " ++ loanType ++ "|FICO " ++ fico ++ "|LTV " ++ ltv ++
    " ⇒ 6.25%/0.2 pts"

/-- Embeds `ToolDispatcher.create_loan_doc` (src/conversation_utils.py
lines 54-55): the mock file-id f-string. -/
def ToolDispatcher.create_loan_doc (borrowerId templateId : String) : String :=
  "file_mock_" ++ borrowerId ++ "_" ++ templateId

/-- The call expression `self.web_search(**args)` (src/conversation_utils.py
line 37) with Python keyword binding: raises `TypeError` when `args` holds an
unexpected key or misses the required `query`. -/
def callWebSearch (args : List (String × String)) : Except PyError String :=
  if args.any (fun kv => !((["query", "freshness_days"] : List String).contains kv.1)) then
    .error (.typeError "web_search() got an unexpected keyword argument")
  else
    match argLookup args "query" with
    | none => .error (.typeError "web_search() missing 1 required positional argument: query")
    | some q => .ok (ToolDispatcher.web_search q (argLookup args "freshness_days"))

/-- The call expression `self.get_rate_sheet(**args)` (src/conversation_utils.py
line 39) with Python keyword binding: all three parameters are required. -/
def callGetRateSheet (args : List (String × String)) : Except PyError String :=
  if args.any (fun kv => !((["loanType", "fico", "ltv"] : List String).contains kv.1)) then
    .error (.typeError "get_rate_sheet() got an unexpected keyword argument")
  else
    match argLookup args "loanType", argLookup args "fico", argLookup args "ltv" with
    | some lt, some f, some l => .ok (ToolDispatcher.get_rate_sheet lt f l)
    | _, _, _ => .error (.typeError "get_rate_sheet() missing required positional arguments")

/-- The call expression `self.create_loan_doc(**args)`
(src/conversation_utils.py line 41) with Python keyword binding: both
parameters are required. -/
def callCreateLoanDoc (args : List (String × String)) : Except PyError String :=
  if args.any (fun kv => !((["borrowerId", "templateId"] : List String).contains kv.1)) then
    .error (.typeError "create_loan_doc() got an unexpected keyword argument")
  else
    match argLookup args "borrowerId", argLookup args "templateId" with
    | some b, some t => .ok (ToolDispatcher.create_loan_doc b t)
    | _, _ => .error (.typeError "create_loan_doc() missing required positional arguments")

/-- The run object as seen by this repository: `id`, `status`, and the path
`required_action.submit_tool_outputs.tool_calls` flattened to `tool_calls`. -/
structure RunObj where
  id : String
  status : String
  tool_calls : List ToolCall
deriving DecidableEq, Repr

/-- The body of the dispatch loop (src/conversation_utils.py lines 34-43) for
one `call`: select the callable by name, or build the unknown-tool sentinel
output. A raised `TypeError` from a callable propagates. -/
def dispatchCall (call : ToolCall) : Except PyError ToolOutput :=
  if call.name = "webSearch" then
    (callWebSearch call.arguments).map (fun out => ⟨call.id, out⟩)
  else if call.name = "getRateSheet" then
    (callGetRateSheet call.arguments).map (fun out => ⟨call.id, out⟩)
  else if call.name = "createLoanDoc" then
    (callCreateLoanDoc call.arguments).map (fun out => ⟨call.id, out⟩)
  else
    .ok ⟨call.id, "Unknown tool " ++ call.name⟩

/-- The `for call in ... tool_calls` loop of `handle_step`
(src/conversation_utils.py lines 32-44): one output appended per call, in
order; an exception raised inside the loop body propagates, discarding the
partial `outputs` list. -/
def handleCalls : List ToolCall → Except PyError (List ToolOutput)
  | [] => .ok []
  | c :: cs =>
    match dispatchCall c with
    | .error e => .error e
    | .ok o =>
      match handleCalls cs with
      | .error e => .error e
      | .ok os => .ok (o :: os)

/-- Embeds `ToolDispatcher.handle_step` (src/conversation_utils.py
lines 30-44): dispatches every call of the run object's required-action
payload. -/
def ToolDispatcher.handle_step (run_obj : RunObj) : Except PyError (List ToolOutput) :=
  handleCalls run_obj.tool_calls

/-! ## src/conversation_utils.py — AssistantRunner -/

/-- A thread message as the orchestrator reads it: the ordered `content`
parts, each reduced to its `text.value`. -/
structure Message where
  content : List String
deriving DecidableEq, Repr

/-- One network round-trip performed by `AssistantRunner.run`, recorded in
order of execution. Each constructor corresponds to exactly one
`self.client.beta...` call site in src/conversation_utils.py. -/
inductive NetEvent where
  | threadsCreate
  | threadsRetrieve (thread_id : String)
  | messagesCreate (thread_id role content : String)
  | runsCreate (assistant_id thread_id : String)
  | submitToolOutputs (run_id thread_id : String) (tool_outputs : List ToolOutput)
  | runsRetrieve (run_id thread_id : String)
  | messagesList (thread_id order : String)
deriving DecidableEq, Repr

/-- The remote service as the orchestrator observes it: the thread id it
hands back, the run object returned by `runs.create`, the stream of run
objects returned by successive `submit_tool_outputs` / `runs.retrieve`
round-trips, and the ascending message list returned by `messages.list`. -/
structure Script where
  thread_id : String
  run0 : RunObj
  responses : Nat → RunObj
  msgs : List Message

/-- Result of one orchestrated turn: the returned reply text, a propagated
Python exception, or fuel exhaustion of the polling loop. -/
inductive RunResult where
  | ok (reply : String)
  | exn (e : PyError)
  | spin
deriving DecidableEq, Repr

/-- Result of the polling loop alone: the run object in hand when the
`while` condition first fails (with the next oracle index), a propagated
exception, or fuel exhaustion. -/
inductive LoopRes where
  | out (run : RunObj) (k : Nat)
  | exn (e : PyError)
  | spin
deriving DecidableEq, Repr

/-- The statuses of the `while` condition (src/conversation_utils.py
line 101). -/
def continueStatuses : List String := ["queued", "in_progress", "requires_action"]

/-- Embeds the polling loop (src/conversation_utils.py lines 101-113): while
the status is in `continueStatuses`, either dispatch the pending tool calls
and submit their outputs, or sleep and re-fetch the run; each iteration
consumes the next scripted response. The returned trace lists the network
round-trips of the loop in order. -/
def runLoop (sc : Script) (tid : String) : Nat → Nat → RunObj → LoopRes × List NetEvent
  | 0, _, _ => (.spin, [])
  | fuel + 1, k, run =>
    if run.status ∈ continueStatuses then
      if run.status = "requires_action" then
        match handleCalls run.tool_calls with
        | .error e => (.exn e, [])
        | .ok outs =>
          let rest := runLoop sc tid fuel (k + 1) (sc.responses k)
          (rest.1, .submitToolOutputs run.id tid outs :: rest.2)
      else
        let rest := runLoop sc tid fuel (k + 1) (sc.responses k)
        (rest.1, .runsRetrieve run.id tid :: rest.2)
    else
      (.out run k, [])

/-- The expression `msgs.data[-1].content[0].text.value`
(src/conversation_utils.py line 117): Python raises `IndexError` on an empty
message list or an empty content list. -/
def finalText (msgs : List Message) : Except PyError String :=
  match msgs.getLast? with
  | none => .error .indexError
  | some m =>
    match m.content.head? with
    | none => .error .indexError
    | some t => .ok t

/-- The three round-trips of steps 1-3 of `run` (src/conversation_utils.py
lines 82-98): thread create-or-retrieve, user message post, run start. -/
def preEvents (assistant_id : String) (sc : Script) (user_message : String)
    (thread_id : Option String) : List NetEvent :=
  [(match thread_id with
    | none => .threadsCreate
    | some t => .threadsRetrieve t),
   .messagesCreate sc.thread_id "user" user_message,
   .runsCreate assistant_id sc.thread_id]

/-- Embeds `AssistantRunner.run` (src/conversation_utils.py lines 80-117):
resolve the thread, post the user message, start the run (the three
`preEvents` round-trips), poll until the `while` condition fails, then list
the messages ascending and return the last message's first text part. The
second component is the full ordered trace of network round-trips
performed. -/
def AssistantRunner.run (assistant_id : String) (sc : Script) (user_message : String)
    (thread_id : Option String) (fuel : Nat) : RunResult × List NetEvent :=
  match runLoop sc sc.thread_id fuel 0 sc.run0 with
  | (.exn e, tr) => (.exn e, preEvents assistant_id sc user_message thread_id ++ tr)
  | (.spin, tr) => (.spin, preEvents assistant_id sc user_message thread_id ++ tr)
  | (.out _ _, tr) =>
    match finalText sc.msgs with
    | .error e =>
      (.exn e, preEvents assistant_id sc user_message thread_id ++ tr ++
        [.messagesList sc.thread_id "asc"])
    | .ok t =>
      (.ok t, preEvents assistant_id sc user_message thread_id ++ tr ++
        [.messagesList sc.thread_id "asc"])

/-- Registries reachable through this repository: the constructor, the two
registration methods, and the `default` factory. -/
inductive ToolRegistry.Reachable : ToolRegistry → Prop where
  | init : ToolRegistry.Reachable ⟨[]⟩
  | addBuiltin {r r' : ToolRegistry} {tag : String} :
      ToolRegistry.Reachable r → r.add_builtin tag = .ok r' → ToolRegistry.Reachable r'
  | addFunction {r : ToolRegistry} (s : ToolSchema) :
      ToolRegistry.Reachable r → ToolRegistry.Reachable (r.add_function s)
  | fromDefault {r : ToolRegistry} :
      ToolRegistry.default = .ok r → ToolRegistry.Reachable r

/-! ## Helper lemmas -/

/-- Destructs a successful `Except.map`. -/
theorem except_map_eq_ok {α β : Type} {f : α → β} {x : Except PyError α} {b : β}
    (h : x.map f = .ok b) : ∃ a, x = .ok a ∧ b = f a := by
  cases x with
  | error e => simp [Except.map] at h
  | ok a =>
    refine ⟨a, rfl, ?_⟩
    simpa [Except.map] using h.symm

/-- A successful dispatch of one call echoes that call's id in its
`tool_call_id` field. -/
theorem dispatchCall_ok_id {c : ToolCall} {o : ToolOutput}
    (h : dispatchCall c = .ok o) : o.tool_call_id = c.id := by
  unfold dispatchCall at h
  split at h
  · obtain ⟨a, _, hb⟩ := except_map_eq_ok h
    subst hb; rfl
  · split at h
    · obtain ⟨a, _, hb⟩ := except_map_eq_ok h
      subst hb; rfl
    · split at h
      · obtain ⟨a, _, hb⟩ := except_map_eq_ok h
        subst hb; rfl
      · cases h; rfl

/-- A successful dispatch loop returns the request ids, in request order. -/
theorem handleCalls_ok_ids : ∀ (calls : List ToolCall) (outs : List ToolOutput),
    handleCalls calls = .ok outs →
    outs.map ToolOutput.tool_call_id = calls.map ToolCall.id := by
  intro calls
  induction calls with
  | nil =>
    intro outs h
    simp only [handleCalls] at h
    cases h
    rfl
  | cons c cs ih =>
    intro outs h
    simp only [handleCalls] at h
    cases hd : dispatchCall c with
    | error e => rw [hd] at h; cases h
    | ok o =>
      rw [hd] at h
      cases hc : handleCalls cs with
      | error e => rw [hc] at h; cases h
      | ok os =>
        rw [hc] at h
        cases h
        simp [dispatchCall_ok_id hd, ih os hc]

/-- If some call's dispatch raises while all earlier dispatches succeed, the
loop propagates that exception. -/
theorem handleCalls_error_propagates (pre post : List ToolCall) (c : ToolCall) (e : PyError)
    (hpre : ∀ p ∈ pre, ∃ o, dispatchCall p = .ok o)
    (hc : dispatchCall c = .error e) :
    handleCalls (pre ++ c :: post) = .error e := by
  induction pre with
  | nil => simp [handleCalls, hc]
  | cons p ps ih =>
    obtain ⟨o, ho⟩ := hpre p (by simp)
    have h2 := ih (fun q hq => hpre q (by simp [hq]))
    simp only [List.cons_append, handleCalls, List.append_eq, ho, h2]

/-- Dispatching a call with an ok result prepends it to the dispatch of the
remaining calls. -/
theorem handleCalls_cons_ok (c : ToolCall) (o : ToolOutput) (cs : List ToolCall)
    (h : dispatchCall c = .ok o) :
    handleCalls (c :: cs) = (handleCalls cs).map (fun os => o :: os) := by
  simp only [handleCalls, h]
  cases handleCalls cs <;> rfl

/-- The dispatch loop distributes over list append. -/
theorem handleCalls_append (xs ys : List ToolCall) :
    handleCalls (xs ++ ys) =
      (handleCalls xs).bind (fun a => (handleCalls ys).map (fun b => a ++ b)) := by
  induction xs with
  | nil =>
    simp only [List.nil_append, handleCalls]
    cases handleCalls ys <;> rfl
  | cons x xs ih =>
    simp only [List.cons_append, handleCalls, List.append_eq, ih]
    cases dispatchCall x with
    | error e => rfl
    | ok o =>
      cases handleCalls xs with
      | error e => rfl
      | ok a => cases handleCalls ys <;> rfl

/-! ## Claim C1 -/

/-- C1: for every run object carrying a required-action batch, when
`handle_step` returns a result list it holds exactly one result per request,
in the same order as the requests, and the i-th result's `tool_call_id`
equals the i-th request's call id (the map equality gives both the pairwise
id equality and the order). -/
theorem handle_step_one_output_per_request (run_obj : RunObj) (outs : List ToolOutput)
    (h : ToolDispatcher.handle_step run_obj = .ok outs) :
    outs.length = run_obj.tool_calls.length ∧
    outs.map ToolOutput.tool_call_id = run_obj.tool_calls.map ToolCall.id := by
  have hm := handleCalls_ok_ids run_obj.tool_calls outs h
  refine ⟨?_, hm⟩
  have hl := congrArg List.length hm
  simpa using hl

/-- Concrete batch for the C1 witness: one known call with valid arguments
and one unknown call. -/
def c1Run : RunObj :=
  ⟨"run_1", "requires_action",
   [⟨"call_a", "getRateSheet", [("loanType", "30yr_fixed"), ("fico", "740"), ("ltv", "0.8")]⟩,
    ⟨"call_b", "flipCoin", []⟩]⟩

/-- C1 witness: `handle_step` on the concrete two-request batch returns two
results whose ids echo the requests pairwise. -/
theorem handle_step_one_output_per_request_witness :
    (⟨"run_1", "requires_action",
      [⟨"call_a", "getRateSheet", [("loanType", "30yr_fixed"), ("fico", "740"), ("ltv", "0.8")]⟩,
       ⟨"call_b", "flipCoin", []⟩]⟩ : RunObj) = c1Run ∧
    ToolDispatcher.handle_step c1Run =
      .ok [⟨"call_a", "RateSheet mock → 30yr_fixed|FICO 740|LTV 0.8 ⇒ 6.25%/0.2 pts"⟩,
           ⟨"call_b", "Unknown tool flipCoin"⟩] ∧
    ([⟨"call_a", "RateSheet mock → 30yr_fixed|FICO 740|LTV 0.8 ⇒ 6.25%/0.2 pts"⟩,
      ⟨"call_b", "Unknown tool flipCoin"⟩] : List ToolOutput).length = c1Run.tool_calls.length ∧
    ([⟨"call_a", "RateSheet mock → 30yr_fixed|FICO 740|LTV 0.8 ⇒ 6.25%/0.2 pts"⟩,
      ⟨"call_b", "Unknown tool flipCoin"⟩] : List ToolOutput).map ToolOutput.tool_call_id =
      c1Run.tool_calls.map ToolCall.id :=
  ⟨rfl, rfl,
   handle_step_one_output_per_request c1Run
     [⟨"call_a", "RateSheet mock → 30yr_fixed|FICO 740|LTV 0.8 ⇒ 6.25%/0.2 pts"⟩,
      ⟨"call_b", "Unknown tool flipCoin"⟩] rfl⟩

/-! ## Claim C2 -/

/-- C2 counterexample: the batch holds one `webSearch` request whose argument
dict lacks the required `query`, so the resolved callable raises `TypeError`
at the call site; `handle_step` has no try/except, so it propagates the
exception instead of returning a full batch with an error-marked output. -/
theorem handle_step_uncaught_exception_cex :
    ToolDispatcher.handle_step ⟨"run_err", "requires_action", [⟨"call_1", "webSearch", []⟩]⟩ =
      .error (.typeError "web_search() missing 1 required positional argument: query") := rfl

/-- C2 amended: when the resolved callable of some request raises and every
earlier request dispatched successfully, `handle_step` propagates that
exception to its caller (the Orchestrator); no result batch, and in
particular no error-marked output for the faulty call, is returned. -/
theorem handle_step_exception_propagates (run_obj : RunObj) (pre post : List ToolCall)
    (c : ToolCall) (e : PyError)
    (hsplit : run_obj.tool_calls = pre ++ c :: post)
    (hpre : ∀ p ∈ pre, ∃ o, dispatchCall p = .ok o)
    (hc : dispatchCall c = .error e) :
    ToolDispatcher.handle_step run_obj = .error e := by
  unfold ToolDispatcher.handle_step
  rw [hsplit]
  exact handleCalls_error_propagates pre post c e hpre hc

/-- C2 amended witness: the concrete batch [valid getRateSheet call,
webSearch call missing its argument] makes `handle_step` propagate the
`TypeError` of the second call. -/
theorem handle_step_exception_propagates_witness :
    ToolDispatcher.handle_step
      ⟨"run_err2", "requires_action",
       [⟨"call_a", "getRateSheet", [("loanType", "30yr_fixed"), ("fico", "740"), ("ltv", "0.8")]⟩,
        ⟨"call_b", "webSearch", []⟩]⟩ =
      .error (.typeError "web_search() missing 1 required positional argument: query") :=
  handle_step_exception_propagates
    ⟨"run_err2", "requires_action",
     [⟨"call_a", "getRateSheet", [("loanType", "30yr_fixed"), ("fico", "740"), ("ltv", "0.8")]⟩,
      ⟨"call_b", "webSearch", []⟩]⟩
    [⟨"call_a", "getRateSheet", [("loanType", "30yr_fixed"), ("fico", "740"), ("ltv", "0.8")]⟩]
    [] ⟨"call_b", "webSearch", []⟩
    (.typeError "web_search() missing 1 required positional argument: query")
    rfl
    (by
      intro p hp
      simp only [List.mem_singleton] at hp
      subst hp
      exact ⟨⟨"call_a", "RateSheet mock → 30yr_fixed|FICO 740|LTV 0.8 ⇒ 6.25%/0.2 pts"⟩, rfl⟩)
    rfl

/-! ## Claim C6 -/

/-- C6: a request whose `tool_name` is none of `webSearch`, `getRateSheet`,
`createLoanDoc` never makes the dispatcher raise: its result is ok with
output `"Unknown tool " ++ name` — the unknown-tool marker followed by the
literal tool name — and the rest of the batch is dispatched exactly as it
would be on its own (second conjunct). -/
theorem unknown_tool_never_raises (run_obj : RunObj) (pre post : List ToolCall) (call : ToolCall)
    (hsplit : run_obj.tool_calls = pre ++ call :: post)
    (hname : call.name ∉ (["webSearch", "getRateSheet", "createLoanDoc"] : List String)) :
    dispatchCall call = .ok ⟨call.id, "Unknown tool " ++ call.name⟩ ∧
    ToolDispatcher.handle_step run_obj =
      (handleCalls pre).bind (fun os1 =>
        (handleCalls post).map (fun os2 =>
          os1 ++ ⟨call.id, "Unknown tool " ++ call.name⟩ :: os2)) := by
  have h1 : ¬(call.name = "webSearch") := fun h => hname (by simp [h])
  have h2 : ¬(call.name = "getRateSheet") := fun h => hname (by simp [h])
  have h3 : ¬(call.name = "createLoanDoc") := fun h => hname (by simp [h])
  have hda : dispatchCall call = .ok ⟨call.id, "Unknown tool " ++ call.name⟩ := by
    unfold dispatchCall
    rw [if_neg h1, if_neg h2, if_neg h3]
  refine ⟨hda, ?_⟩
  unfold ToolDispatcher.handle_step
  rw [hsplit, handleCalls_append, handleCalls_cons_ok call _ post hda]
  cases handleCalls pre with
  | error e => rfl
  | ok a =>
    cases handleCalls post with
    | error e => rfl
    | ok b => rfl

/-- C6 witness: the unknown call `mintCoin` at the head of a concrete batch
is tolerated and the following `createLoanDoc` call is still dispatched. -/
theorem unknown_tool_never_raises_witness :
    dispatchCall ⟨"call_x", "mintCoin", []⟩ = .ok ⟨"call_x", "Unknown tool mintCoin"⟩ ∧
    ToolDispatcher.handle_step
      ⟨"run_u", "requires_action",
       [⟨"call_x", "mintCoin", []⟩,
        ⟨"call_y", "createLoanDoc", [("borrowerId", "b1"), ("templateId", "t1")]⟩]⟩ =
      (handleCalls []).bind (fun os1 =>
        (handleCalls [⟨"call_y", "createLoanDoc", [("borrowerId", "b1"), ("templateId", "t1")]⟩]).map
          (fun os2 => os1 ++ ⟨"call_x", "Unknown tool mintCoin"⟩ :: os2)) :=
  unknown_tool_never_raises
    ⟨"run_u", "requires_action",
     [⟨"call_x", "mintCoin", []⟩,
      ⟨"call_y", "createLoanDoc", [("borrowerId", "b1"), ("templateId", "t1")]⟩]⟩
    [] [⟨"call_y", "createLoanDoc", [("borrowerId", "b1"), ("templateId", "t1")]⟩]
    ⟨"call_x", "mintCoin", []⟩ rfl (by decide)

/-! ## Claim C4 -/

/-- The custom-tool name carried by a registry entry, if any. -/
def entryName : ToolEntry → Option String
  | .schema s => some s.name
  | .builtin _ => none

/-- C4 counterexample: registering `webSearchSchema` into a registry that
already holds a schema of that name raises nothing and does not leave the
registry unchanged — the duplicate is appended (`add_function` has no
duplicate-name check and no `DuplicateToolError` exists in the code). -/
theorem add_function_duplicate_cex :
    ToolRegistry.add_function ⟨[.schema webSearchSchema]⟩ webSearchSchema =
      ⟨[.schema webSearchSchema, .schema webSearchSchema]⟩ := rfl

/-- C4 amended: `add_function` appends unconditionally; when the schema's
name is already the name of a registered custom tool, registration still
succeeds and the registry afterwards holds at least two custom tools of that
name. -/
theorem add_function_appends_duplicate (r : ToolRegistry) (s s₀ : ToolSchema)
    (hmem : ToolEntry.schema s₀ ∈ r._tools) (hname : s₀.name = s.name) :
    r.add_function s = ⟨r._tools ++ [.schema s]⟩ ∧
    2 ≤ ((r.add_function s)._tools.filter
          (fun e => entryName e == some s.name)).length := by
  refine ⟨rfl, ?_⟩
  have hfilter : ToolEntry.schema s₀ ∈ r._tools.filter (fun e => entryName e == some s.name) := by
    refine List.mem_filter.mpr ⟨hmem, ?_⟩
    simp [entryName, hname]
  have h1 : 1 ≤ (r._tools.filter (fun e => entryName e == some s.name)).length :=
    List.length_pos.mpr (List.ne_nil_of_mem hfilter)
  have happ : (r.add_function s)._tools.filter (fun e => entryName e == some s.name) =
      r._tools.filter (fun e => entryName e == some s.name) ++ [ToolEntry.schema s] := by
    show (r._tools ++ [ToolEntry.schema s]).filter (fun e => entryName e == some s.name) = _
    rw [List.filter_append]
    simp [entryName]
  rw [happ]
  simp only [List.length_append, List.length_singleton]
  omega

/-- C4 amended witness: the duplicate `webSearch` registration at the
concrete one-entry registry. -/
theorem add_function_appends_duplicate_witness :
    ToolRegistry.add_function ⟨[.schema webSearchSchema]⟩ webSearchSchema =
      ⟨[.schema webSearchSchema, .schema webSearchSchema]⟩ ∧
    2 ≤ (((ToolRegistry.add_function ⟨[.schema webSearchSchema]⟩ webSearchSchema))._tools.filter
          (fun e => entryName e == some webSearchSchema.name)).length :=
  add_function_appends_duplicate ⟨[.schema webSearchSchema]⟩ webSearchSchema webSearchSchema
    (by simp) rfl

/-! ## Claim C7 -/

/-- C7: `add_builtin` validates its tag against the closed set locally — the
function's result depends on nothing but the registry value and the tag, so
no network interaction is involved — raising `ValueError` and adding nothing
for a tag outside `code_interpreter`/`file_search`, and appending exactly
one one-field tag entry for a tag inside it. -/
theorem add_builtin_validates (r : ToolRegistry) (tag : String) :
    (tag ∉ (["code_interpreter", "file_search"] : List String) →
      r.add_builtin tag = .error (.valueError ("Unknown built‑in tool: " ++ tag))) ∧
    (tag ∈ (["code_interpreter", "file_search"] : List String) →
      r.add_builtin tag = .ok ⟨r._tools ++ [.builtin tag]⟩) := by
  constructor
  · intro h
    unfold ToolRegistry.add_builtin
    rw [if_neg h]
  · intro h
    unfold ToolRegistry.add_builtin
    rw [if_pos h]

/-- C7 witness: the unknown tag `web_browsing` is rejected at a concrete
registry and `file_search` is appended as a single-field tag entry. -/
theorem add_builtin_validates_witness :
    (ToolRegistry.add_builtin ⟨[]⟩ "web_browsing" =
      .error (.valueError "Unknown built‑in tool: web_browsing")) ∧
    (ToolRegistry.add_builtin ⟨[.builtin "code_interpreter"]⟩ "file_search" =
      .ok ⟨[.builtin "code_interpreter", .builtin "file_search"]⟩) :=
  ⟨(add_builtin_validates ⟨[]⟩ "web_browsing").1 (by decide),
   (add_builtin_validates ⟨[.builtin "code_interpreter"]⟩ "file_search").2 (by decide)⟩

/-! ## Claim C9 -/

/-- The loop of `openai_tools` encodes each entry in order. -/
theorem openaiToolsLoop_eq_map (ts : List ToolEntry) :
    openaiToolsLoop ts = ts.map encodeEntry := by
  induction ts with
  | nil => rfl
  | cons t ts ih => simp [openaiToolsLoop, ih]

/-- C9: `openai_tools` is a pure observation — it hands back the registry
unmodified, a second call on that registry returns the same list, and the
returned list holds one encoded descriptor per `_tools` entry, in
registration order. -/
theorem openai_tools_pure_observation (r : ToolRegistry) :
    (r.openai_tools).2 = r ∧
    ((r.openai_tools).2.openai_tools).1 = (r.openai_tools).1 ∧
    (r.openai_tools).1 = r._tools.map encodeEntry := by
  refine ⟨rfl, rfl, ?_⟩
  exact openaiToolsLoop_eq_map r._tools

/-! ## Claim C10 -/

/-- The five entries `ToolRegistry.default` produces, in registration order. -/
def defaultEntries : List ToolEntry :=
  [.builtin "code_interpreter", .builtin "file_search",
   .schema webSearchSchema, .schema getRateSheetSchema, .schema createLoanDocSchema]

/-- C10: in every registry reachable through the constructor, `add_builtin`,
`add_function` and the `default` factory, every built-in entry (the one-field
tag dict) carries a tag in the closed set; and the default registry holds
exactly the two built-ins followed by the three custom schemas, in order. -/
theorem registry_builtin_invariant :
    (∀ r : ToolRegistry, ToolRegistry.Reachable r →
      ∀ tag, ToolEntry.builtin tag ∈ r._tools →
        tag ∈ (["code_interpreter", "file_search"] : List String)) ∧
    ToolRegistry.default = .ok ⟨defaultEntries⟩ := by
  constructor
  · intro r hr
    induction hr with
    | init =>
      intro tag h
      simp at h
    | addBuiltin hreach hok ih =>
      intro tag h
      rename_i r₀ r' tag₀
      unfold ToolRegistry.add_builtin at hok
      split at hok
      · rename_i hmem
        cases hok
        rcases List.mem_append.mp h with h1 | h1
        · exact ih tag h1
        · simp only [List.mem_singleton] at h1
          cases h1
          exact hmem
      · cases hok
    | addFunction s hreach ih =>
      intro tag h
      rename_i r₀
      simp only [ToolRegistry.add_function] at h
      rcases List.mem_append.mp h with h1 | h1
      · exact ih tag h1
      · simp at h1
    | fromDefault hdef =>
      intro tag h
      rename_i r₀
      have hval : ToolRegistry.default = .ok (⟨defaultEntries⟩ : ToolRegistry) := rfl
      rw [hval] at hdef
      cases hdef
      simp only [defaultEntries, List.mem_cons, List.not_mem_nil, or_false] at h
      rcases h with h | h | h | h | h <;> first
        | (cases h; decide)
        | (exfalso; exact ToolEntry.noConfusion h)
  · rfl

/-- C10 witness: the default registry is reachable and its `file_search`
built-in entry indeed carries a tag of the closed set. -/
theorem registry_builtin_invariant_witness :
    "file_search" ∈ (["code_interpreter", "file_search"] : List String) :=
  registry_builtin_invariant.1 ⟨defaultEntries⟩
    (ToolRegistry.Reachable.fromDefault registry_builtin_invariant.2)
    "file_search" (by decide)

/-! ## Claim C8 -/

/-- On a status outside the while-condition set the polling loop exits at
once with the run object in hand and performs no further network
round-trip. -/
theorem runLoop_exit (sc : Script) (tid : String) (fuel k : Nat) (run : RunObj)
    (h : run.status ∉ continueStatuses) :
    runLoop sc tid (fuel + 1) k run = (.out run k, []) := by
  unfold runLoop
  rw [if_neg h]

/-- One-step unfolding of the polling loop at positive fuel. -/
theorem runLoop_succ_eq (sc : Script) (tid : String) (fuel k : Nat) (run : RunObj) :
    runLoop sc tid (fuel + 1) k run =
      if run.status ∈ continueStatuses then
        if run.status = "requires_action" then
          match handleCalls run.tool_calls with
          | .error e => (.exn e, [])
          | .ok outs =>
            ((runLoop sc tid fuel (k + 1) (sc.responses k)).1,
             .submitToolOutputs run.id tid outs ::
               (runLoop sc tid fuel (k + 1) (sc.responses k)).2)
        else
          ((runLoop sc tid fuel (k + 1) (sc.responses k)).1,
           .runsRetrieve run.id tid :: (runLoop sc tid fuel (k + 1) (sc.responses k)).2)
      else (.out run k, []) := rfl

/-- On a status inside the while-condition set the loop enters another
iteration: either dispatching raised and the exception aborts the loop, or
one more round-trip (a tool-output submission or a run re-fetch) is emitted
and the loop goes on at the next scripted response. -/
theorem runLoop_continue (sc : Script) (tid : String) (fuel k : Nat) (run : RunObj)
    (h : run.status ∈ continueStatuses) :
    (∃ e, handleCalls run.tool_calls = .error e ∧
          runLoop sc tid (fuel + 1) k run = (.exn e, [])) ∨
    (∃ ev rest, runLoop sc tid (fuel + 1) k run =
        ((runLoop sc tid fuel (k + 1) (sc.responses k)).1, ev :: rest) ∧
      ((∃ outs, ev = NetEvent.submitToolOutputs run.id tid outs) ∨
        ev = NetEvent.runsRetrieve run.id tid)) := by
  rw [runLoop_succ_eq, if_pos h]
  by_cases hra : run.status = "requires_action"
  · rw [if_pos hra]
    cases hd : handleCalls run.tool_calls with
    | error e => exact Or.inl ⟨e, rfl, rfl⟩
    | ok outs =>
      refine Or.inr ⟨.submitToolOutputs run.id tid outs,
        (runLoop sc tid fuel (k + 1) (sc.responses k)).2, rfl, Or.inl ⟨outs, rfl⟩⟩
  · rw [if_neg hra]
    exact Or.inr ⟨.runsRetrieve run.id tid,
      (runLoop sc tid fuel (k + 1) (sc.responses k)).2, rfl, Or.inr rfl⟩

/-- C8: the polling loop continues for exactly the statuses `queued`,
`in_progress` and `requires_action` — on a status in that set it performs
another iteration (another submission or poll round-trip, unless the
dispatcher raised), and on any status outside it (`completed`, `failed`,
`cancelled`, `expired`, or anything else) it exits immediately and never
polls again. -/
theorem polling_loop_continues_exactly (sc : Script) (tid : String) (fuel k : Nat)
    (run : RunObj) :
    (run.status ∉ (["queued", "in_progress", "requires_action"] : List String) →
      runLoop sc tid (fuel + 1) k run = (.out run k, [])) ∧
    (run.status ∈ (["queued", "in_progress", "requires_action"] : List String) →
      (∃ e, handleCalls run.tool_calls = .error e ∧
            runLoop sc tid (fuel + 1) k run = (.exn e, [])) ∨
      (∃ ev rest, runLoop sc tid (fuel + 1) k run =
          ((runLoop sc tid fuel (k + 1) (sc.responses k)).1, ev :: rest) ∧
        ((∃ outs, ev = NetEvent.submitToolOutputs run.id tid outs) ∨
          ev = NetEvent.runsRetrieve run.id tid))) :=
  ⟨fun h => runLoop_exit sc tid fuel k run h,
   fun h => runLoop_continue sc tid fuel k run h⟩

/-- A completed run object, for the C8 witness script. -/
def runDoneW : RunObj := ⟨"r_w", "completed", []⟩

/-- A queued run object, for the C8 witness script. -/
def runQueuedW : RunObj := ⟨"r_w", "queued", []⟩

/-- The C8 witness script: a queued run that completes on the next poll. -/
def scW : Script := ⟨"t_w", runQueuedW, fun _ => runDoneW, [⟨["done"]⟩]⟩

/-- C8 witness: at the concrete script, the loop exits at once on
`completed` and re-polls on `queued`. -/
theorem polling_loop_continues_exactly_witness :
    runLoop scW "t_w" 1 0 runDoneW = (.out runDoneW 0, []) ∧
    ((∃ e, handleCalls runQueuedW.tool_calls = .error e ∧
           runLoop scW "t_w" 1 0 runQueuedW = (.exn e, [])) ∨
     (∃ ev rest, runLoop scW "t_w" 1 0 runQueuedW =
         ((runLoop scW "t_w" 0 1 (scW.responses 0)).1, ev :: rest) ∧
       ((∃ outs, ev = NetEvent.submitToolOutputs runQueuedW.id "t_w" outs) ∨
         ev = NetEvent.runsRetrieve runQueuedW.id "t_w"))) :=
  ⟨(polling_loop_continues_exactly scW "t_w" 0 0 runDoneW).1 (by decide),
   (polling_loop_continues_exactly scW "t_w" 0 0 runQueuedW).2 (by decide)⟩

/-! ## Claim C3 -/

/-- A terminal failure status is outside the while-condition set. -/
theorem terminal_not_continue {s : String}
    (h : s ∈ (["failed", "cancelled", "expired"] : List String)) :
    s ∉ continueStatuses := by
  simp only [List.mem_cons, List.not_mem_nil, or_false] at h
  rcases h with h | h | h <;> subst h <;> decide

/-- A failed-from-the-start script for the C3 counterexample: the posted
user message is the only thread content. -/
def scFailCex : Script :=
  ⟨"t_f", ⟨"r_f", "failed", []⟩, fun _ => ⟨"r_f", "failed", []⟩, [⟨["hello"]⟩]⟩

/-- C3 counterexample: on a run that transitions directly to `failed`, `run`
raises nothing — no RunFailedError exists anywhere in the code — and instead
falls out of the loop, lists the thread messages and returns the text of the
last one (here the user's own message). The trace also shows no tool-output
submission was made. -/
theorem run_failed_raises_nothing_cex :
    AssistantRunner.run "asst" scFailCex "hello" none 5 =
      (.ok "hello",
       [.threadsCreate, .messagesCreate "t_f" "user" "hello",
        .runsCreate "asst" "t_f", .messagesList "t_f" "asc"]) := rfl

/-- C3 amended: on a run whose status is terminal failure (`failed`,
`cancelled` or `expired`) the loop exits at once and no tool-output
submission happens after that observation (second conjunct); but instead of
raising a RunFailedError carrying the status, `run` proceeds to list the
thread messages and yields whatever `finalText` gives on them. -/
theorem run_terminal_failure_behaviour (sc : Script) (aid um : String) (fuel : Nat)
    (h : sc.run0.status ∈ (["failed", "cancelled", "expired"] : List String)) :
    AssistantRunner.run aid sc um none (fuel + 1) =
      ((match finalText sc.msgs with
        | .error e => RunResult.exn e
        | .ok t => RunResult.ok t),
       [.threadsCreate, .messagesCreate sc.thread_id "user" um,
        .runsCreate aid sc.thread_id, .messagesList sc.thread_id "asc"]) ∧
    (∀ ev ∈ (AssistantRunner.run aid sc um none (fuel + 1)).2,
      ∀ rid tid outs, ev ≠ NetEvent.submitToolOutputs rid tid outs) := by
  have hnc := terminal_not_continue h
  have hloop := runLoop_exit sc sc.thread_id fuel 0 sc.run0 hnc
  have hrun : AssistantRunner.run aid sc um none (fuel + 1) =
      ((match finalText sc.msgs with
        | .error e => RunResult.exn e
        | .ok t => RunResult.ok t),
       [.threadsCreate, .messagesCreate sc.thread_id "user" um,
        .runsCreate aid sc.thread_id, .messagesList sc.thread_id "asc"]) := by
    unfold AssistantRunner.run
    rw [hloop]
    cases hft : finalText sc.msgs <;> simp [hft, preEvents]
  refine ⟨hrun, ?_⟩
  rw [hrun]
  intro ev hev rid tid outs
  simp only [List.mem_cons, List.not_mem_nil, or_false] at hev
  rcases hev with h1 | h1 | h1 | h1 <;> subst h1 <;> simp

/-- C3 amended witness: the concrete directly-failed script. -/
theorem run_terminal_failure_behaviour_witness :
    AssistantRunner.run "asst" scFailCex "hello" none 5 =
      (.ok "hello",
       [.threadsCreate, .messagesCreate "t_f" "user" "hello",
        .runsCreate "asst" "t_f", .messagesList "t_f" "asc"]) ∧
    (∀ ev ∈ (AssistantRunner.run "asst" scFailCex "hello" none 5).2,
      ∀ rid tid outs, ev ≠ NetEvent.submitToolOutputs rid tid outs) :=
  ⟨((run_terminal_failure_behaviour scFailCex "asst" "hello" 4 (by decide)).1).trans rfl,
   (run_terminal_failure_behaviour scFailCex "asst" "hello" 4 (by decide)).2⟩

/-! ## Claim C5 -/

/-- A completed-at-once script over an empty thread, for the C5
counterexample. -/
def scEmptyCex : Script :=
  ⟨"t_e", ⟨"r_e", "completed", []⟩, fun _ => ⟨"r_e", "completed", []⟩, []⟩

/-- C5 counterexample: on a completed run over a thread with no message at
all, `run` fails with the plain `IndexError` of `msgs.data[-1]` — the code
defines no EmptyConversationError, so the failure is not that dedicated
condition but an ordinary index-out-of-range exception. -/
theorem run_empty_thread_index_error_cex :
    AssistantRunner.run "asst" scEmptyCex "hi" none 5 =
      (.exn .indexError,
       [.threadsCreate, .messagesCreate "t_e" "user" "hi",
        .runsCreate "asst" "t_e", .messagesList "t_e" "asc"]) := rfl

/-- C5 amended: when the run's status is `completed` the orchestrator lists
the thread messages in ascending (chronological) order — the trace records
the `messages.list` call with order `asc` — and returns the text of the last
message; but on an empty thread it fails with the generic `IndexError`, not
a dedicated EmptyConversationError (none exists in the code). -/
theorem run_completed_returns_last_message (sc : Script) (aid um : String) (fuel : Nat)
    (h : sc.run0.status = "completed") :
    AssistantRunner.run aid sc um none (fuel + 1) =
      ((match finalText sc.msgs with
        | .error e => RunResult.exn e
        | .ok t => RunResult.ok t),
       [.threadsCreate, .messagesCreate sc.thread_id "user" um,
        .runsCreate aid sc.thread_id, .messagesList sc.thread_id "asc"]) ∧
    (sc.msgs = [] → finalText sc.msgs = .error .indexError) ∧
    (∀ ms m t rest, sc.msgs = ms ++ [m] → m.content = t :: rest →
       finalText sc.msgs = .ok t) := by
  have hnc : sc.run0.status ∉ continueStatuses := by rw [h]; decide
  have hloop := runLoop_exit sc sc.thread_id fuel 0 sc.run0 hnc
  refine ⟨?_, ?_, ?_⟩
  · unfold AssistantRunner.run
    rw [hloop]
    cases hft : finalText sc.msgs <;> simp [hft, preEvents]
  · intro hm
    rw [hm]
    rfl
  · intro ms m t rest hm hc
    have h1 : sc.msgs.getLast? = some m := by
      rw [hm]
      exact List.getLast?_concat ms
    unfold finalText
    rw [h1]
    dsimp only
    rw [hc]
    rfl

/-- A completed script whose thread holds the user message and the reply,
for the C5 amended witness. -/
def scDoneW : Script :=
  ⟨"t_d", ⟨"r_d", "completed", []⟩, fun _ => ⟨"r_d", "completed", []⟩,
   [⟨["hi"]⟩, ⟨["final reply"]⟩]⟩

/-- C5 amended witness: at the concrete completed script the final reply is
the last message's text. -/
theorem run_completed_returns_last_message_witness :
    AssistantRunner.run "a" scDoneW "hi" none 1 =
      (.ok "final reply",
       [.threadsCreate, .messagesCreate "t_d" "user" "hi",
        .runsCreate "a" "t_d", .messagesList "t_d" "asc"]) ∧
    finalText scDoneW.msgs = .ok "final reply" :=
  ⟨((run_completed_returns_last_message scDoneW "a" "hi" 0 rfl).1).trans rfl,
   (run_completed_returns_last_message scDoneW "a" "hi" 0 rfl).2.2
     [⟨["hi"]⟩] ⟨["final reply"]⟩ "final reply" [] rfl rfl⟩
